import Mathlib

/-!
Verification of the KB-publisher pipeline of
`src/sma-av-streamlit/core/agents/kb_publisher.py` (class `KBPublisherAgent`).

Shallow embedding conventions:
* Python dicts whose key sets are fixed by the code are structures with
  `Option` fields; a JSON `null` value and a missing key are both `none`
  (the code only ever reads them through `.get`, which identifies the two).
* The generative backend (`core/llm/client.py`), the ServiceNow client
  (`core/tools/servicenow.py`) and the guard module
  (`core/guards/kb_article_schema.py`) are not under `src/`; where their
  behaviour decides a claim they are modelled from the spec and the doc
  comment says so.  Elsewhere they are oracles passed in as parameters.
* Exceptions become `Except`; the ghost list of `Call`s records every
  store invocation in order, so "never issues a create call" is a
  statement about the trace.
-/

namespace KBPub

/-- Whitespace recognised by Python `str.strip()`. -/
def isPyWS (c : Char) : Bool :=
  c = ' ' || c = '\t' || c = '\n' || c = '\r' || c = '\x0b' || c = '\x0c'

/-- Python `str.strip()` on the character list: drop whitespace from both ends. -/
def pyStripL (l : List Char) : List Char :=
  ((l.dropWhile isPyWS).reverse.dropWhile isPyWS).reverse

/-- Python `str.strip()`. -/
def pyStrip (s : String) : String :=
  ⟨pyStripL s.data⟩

/-- Python truthiness of an optional string (`None`, missing and `""` are falsy). -/
def truthyStr : Option String → Bool
  | none => false
  | some s => s ≠ ""

/-- The `tags` value of a raw plan dict: missing key, a JSON string, or a list. -/
inductive RawTags where
  | absent : RawTags
  | str (s : String) : RawTags
  | list (ts : List String) : RawTags
deriving DecidableEq

/-- A plan dict as produced by the LLM / carried through the pipeline.
Fields are the keys the code reads; unknown extra keys are never read by
`kb_publisher.py` and are not modelled. -/
structure RawPlan where
  short_description : Option String
  html : Option String
  kb_base_sys_id : Option String
  category : Option String
  valid_to : Option String
  tags : RawTags
deriving DecidableEq

/-- The comprehension `[str(t).strip() for t in ts if str(t).strip()]`. -/
def cleanTags (ts : List String) : List String :=
  (ts.map pyStrip).filter (fun s => s ≠ "")

/-- The dedup loop of `_plan_from_sop` (lines 71-76): a `seen` set plus an
append-in-order accumulator, keeping the first occurrence of each tag. -/
def dedupSeen (seen : List String) : List String → List String
  | [] => []
  | t :: rest =>
    if t ∈ seen then dedupSeen seen rest
    else t :: dedupSeen (t :: seen) rest

/-- `KBPublisherAgent._plan_from_sop`, lines 59-81: the post-parse part that
applies caller defaults and merges tags.  (Lines 30-57 — the chat call and
JSON decode — are modelled in `runKB` by the `chatData` oracle.) -/
def planFromSop (data : RawPlan) (kb_base_sys_id : String)
    (category : Option String) (tags : List String) : RawPlan :=
  -- data.setdefault("kb_base_sys_id", kb_base_sys_id)
  let data := { data with kb_base_sys_id := some (data.kb_base_sys_id.getD kb_base_sys_id) }
  -- if category and not data.get("category"): data["category"] = category
  let data :=
    if truthyStr category && !truthyStr data.category then
      { data with category := category }
    else data
  -- plan_tags: extend from data["tags"] when it is a list, then from caller tags
  let planTags :=
    (match data.tags with
     | .list ts => cleanTags ts
     | _ => []) ++
    (if tags.isEmpty then [] else cleanTags tags)
  if planTags ≠ [] then
    { data with tags := .list (dedupSeen [] planTags) }
  else if data.tags ≠ .absent then
    { data with tags := .list [] }
  else
    data

/-- Modelled from the spec: `sanitize_html` lives in
`core/guards/kb_article_schema.py`, which is not under `src/`.  Spec §4.3
only says it "strips unsafe markup while preserving basic rich-text
structure; this sanitizer is a collaborator, not specified here", so it is
modelled as a character-level sanitizer that removes unsafe control
characters (idempotent, as any filter is). -/
def sanitize_html (s : String) : String :=
  ⟨s.data.filter (fun c => 32 ≤ c.toNat || c = '\n' || c = '\t' || c = '\r')⟩

/-- `KBPublisherAgent._normalize_plan`, lines 83-92. -/
def normalizePlan (plan : RawPlan) : RawPlan :=
  { plan with
    html := some (sanitize_html (plan.html.getD ""))
    tags := .list
      (match plan.tags with
       | .list ts => cleanTags ts
       | .str s => if s ≠ "" then [pyStrip s] else []
       | .absent => cleanTags []) }

/-- A mapping as handed to `jsonschema.validate` / `content_fingerprint`:
either a plan dict or the candidate dict built by `_verify`. -/
structure Doc where
  short_description : Option String
  html : Option String
  kb_base_sys_id : Option String
  category : Option String
  valid_to : Option String
  tags : RawTags
deriving DecidableEq

/-- View a plan dict as the mapping passed to the external collaborators. -/
def docOfPlan (p : RawPlan) : Doc :=
  ⟨p.short_description, p.html, p.kb_base_sys_id, p.category, p.valid_to, p.tags⟩

/-- Length-prefixed encoding of the two semantic fields, so distinct pairs
encode distinctly. -/
def fpEncode (sd html : String) : List Char :=
  (toString sd.length).data ++ ':' :: sd.data ++
    '|' :: (toString html.length).data ++ ':' :: html.data

/-- Modelled from the spec: `content_fingerprint` lives in
`core/guards/kb_article_schema.py`, which is not under `src/`.  Spec §4.5
and §3 fix it as a deterministic digest over the explicit ordered semantic
fields `short_description` and `html` of the given mapping (never the full
mapping verbatim); `_verify` (lines 198-203) calls it with exactly those two
keys.  The digest is a 64-bit polynomial rolling hash of the
length-prefixed field encoding. -/
def content_fingerprint (d : Doc) : Nat :=
  (fpEncode (d.short_description.getD "") (d.html.getD "")).foldl
    (fun h c => (h * 131 + c.toNat) % 18446744073709551616) 5381

/-- Schema validator oracle: `jsonschema.validate(x, KB_SCHEMA)` abstracted
as an optional function returning the violation message, `none` on success.
The `Option` around the whole function is the lines 7-11 import fallback
(`validate = None` when `jsonschema` is unavailable). -/
abbrev Validator := Option (Doc → Option String)

/-- Errors `run` can raise, by Python exception class. -/
inductive RunErr where
  | runtime (msg : String) : RunErr
  | schema (msg : String) : RunErr
  | keyError (key : String) : RunErr
  | transport (msg : String) : RunErr
deriving DecidableEq

/-- `KBPublisherAgent._validate_plan`, lines 94-100. -/
def validatePlan (validator : Validator) (plan : RawPlan) : Except RunErr Unit :=
  match validator with
  | none => .ok ()
  | some v =>
    match v (docOfPlan plan) with
    | none => .ok ()
    | some msg => .error (.schema ("Plan failed schema validation: " ++ msg))

/-- A ServiceNow record as returned by the store client, restricted to the
keys the agent reads. -/
structure Record where
  sys_id : Option String
  number : Option String
  short_description : Option String
  text : Option String
  article_body : Option String
  kb_knowledge_base : Option String
  category : Option String
  valid_to : Option String
  tags : RawTags
deriving DecidableEq

/-- The field payload of a `kb_create` / `kb_update` call (`**extra` keys
are `none` when the key is not passed). -/
structure WriteArgs where
  short_description : String
  body : String
  kb_base : String
  category : Option String
  valid_to : Option String
  tags : Option String
deriving DecidableEq

/-- Ghost trace of store invocations. -/
inductive Call where
  | create (args : WriteArgs) : Call
  | update (id : String) (args : WriteArgs) : Call
  | attach (sys_id : Option String) (path : String) : Call
  | get (id : String) : Call
deriving DecidableEq

/-- The ServiceNow client `core/tools/servicenow.py` (not under `src/`),
as an oracle: each operation may return a record or raise. -/
structure Store where
  kb_create : WriteArgs → Except String Record
  kb_update : String → WriteArgs → Except String Record
  kb_get : String → Except String Record
  kb_attach : Option String → String → Except String String

/-- The attachment loop of `_act_publish` (lines 150-152): upload in order,
an exception aborts the rest; the trace records every call made. -/
def attachLoop (st : Store) (sid : Option String) :
    List String → Except RunErr (List String) × List Call
  | [] => (.ok [], [])
  | p :: rest =>
    match st.kb_attach sid p with
    | .error e => (.error (.transport e), [.attach sid p])
    | .ok v =>
      ((attachLoop st sid rest).1.map (fun vs => v :: vs),
       .attach sid p :: (attachLoop st sid rest).2)

/-- The record dict returned by `_act_publish` (lines 154-159): the store
record with `sys_id` defaulted, plus the `mode` and `attachments` keys. -/
structure PublishRecord where
  record : Record
  mode : String
  attachments : List String
deriving DecidableEq

/-- The `tag_value` computation of `_act_publish` (lines 116-120):
`plan.get("tags") or []`, joined with commas when a non-empty list,
stringified when a non-empty string, else `None`. -/
def tagValue (tags : RawTags) : Option String :=
  match tags with
  | .list ts => if ts ≠ [] then some (String.intercalate "," ts) else none
  | .str s => if s ≠ "" then some s else none
  | .absent => none

/-- The write payload `_act_publish` builds (lines 111-128). -/
def buildArgs (plan : RawPlan) (sd html kb : String) : WriteArgs :=
  { short_description := sd
    body := html
    kb_base := kb
    category := if truthyStr plan.category then plan.category else none
    valid_to := if truthyStr plan.valid_to then plan.valid_to else none
    tags := tagValue plan.tags }

/-- Shared tail of `_act_publish`: the attachment loop and the record-dict
assembly (`record.setdefault("sys_id", sys_id)` keeps the store's own value
when present). -/
def finishPublish (st : Store) (record : Record) (mode : String)
    (sid : Option String) (attachments : List String) :
    Except RunErr PublishRecord × List Call :=
  ((attachLoop st sid attachments).1.map (fun vs =>
     { record := { record with sys_id := record.sys_id.orElse (fun _ => sid) }
       mode := mode
       attachments := vs }),
   (attachLoop st sid attachments).2)

/-- `KBPublisherAgent._act_publish`, lines 105-159.  `plan["short_description"]`
etc. raise `KeyError` when the key is missing. -/
def actPublish (st : Store) (plan : RawPlan) (attachments : List String)
    (existing_sys_id : Option String) : Except RunErr PublishRecord × List Call :=
  match plan.short_description with
  | none => (.error (.keyError "short_description"), [])
  | some sd =>
    match plan.html with
    | none => (.error (.keyError "html"), [])
    | some html =>
      match plan.kb_base_sys_id with
      | none => (.error (.keyError "kb_base_sys_id"), [])
      | some kb =>
        let args := buildArgs plan sd html kb
        if truthyStr existing_sys_id then
          let id := existing_sys_id.getD ""
          match st.kb_update id args with
          | .error e => (.error (.transport e), [.update id args])
          | .ok record =>
            ((finishPublish st record "update" (some id) attachments).1,
             .update id args :: (finishPublish st record "update" (some id) attachments).2)
        else
          match st.kb_create args with
          | .error e => (.error (.transport e), [.create args])
          | .ok record =>
            ((finishPublish st record "create" record.sys_id attachments).1,
             .create args :: (finishPublish st record "create" record.sys_id attachments).2)

/-- The `normalized` dict built by `_verify` (lines 167-182 and 198-203). -/
structure NormalizedView where
  sys_id : String
  number : Option String
  short_description : String
  html : String
  kb_base_sys_id : Option String
  category : Option String
  valid_to : Option String
  tags : Option (List String)
  fingerprint : Nat
deriving DecidableEq

/-- Lines 167-182 plus 198-203 of `_verify`: normalize the read-back record
into the plan shape and recompute the content fingerprint. -/
def normalizedOf (record : Record) (sys_id : String) : NormalizedView :=
  let html :=
    if truthyStr record.text then record.text.getD ""
    else if truthyStr record.article_body then record.article_body.getD ""
    else ""
  { sys_id := record.sys_id.getD sys_id
    number := record.number
    short_description := record.short_description.getD ""
    html := html
    kb_base_sys_id := record.kb_knowledge_base
    category := if truthyStr record.category then record.category else none
    valid_to := if truthyStr record.valid_to then record.valid_to else none
    tags :=
      match record.tags with
      | .list ts => some ts
      | .str s =>
        if pyStrip s ≠ "" then
          some (((s.splitOn ",").map pyStrip).filter (fun t => t ≠ ""))
        else none
      | .absent => none
    fingerprint :=
      content_fingerprint
        ⟨some (record.short_description.getD ""), some html, none, none, none, .absent⟩ }

/-- The `candidate` dict of `_verify` (lines 184-188): the subset of
normalized keys handed to the schema validator. -/
def candidateOf (record : Record) (sys_id : String) : Doc :=
  let n := normalizedOf record sys_id
  { short_description := some n.short_description
    html := some n.html
    kb_base_sys_id := n.kb_base_sys_id
    category := n.category
    valid_to := n.valid_to
    tags := match n.tags with | some ts => .list ts | none => .absent }

/-- The dict `_verify` returns; `run` also builds the literal
`{"ok": False, "error": "Missing sys_id"}` in this shape. -/
structure VerifyResult where
  ok : Bool
  error : Option String
  errors : List String
  record : Option Record
  normalized : Option NormalizedView
deriving DecidableEq

/-- `KBPublisherAgent._verify`, lines 161-210. -/
def verify (st : Store) (validator : Validator) (sys_id : String) : VerifyResult :=
  match st.kb_get sys_id with
  | .error e => { ok := false, error := some e, errors := [], record := none, normalized := none }
  | .ok record =>
    let vres : Option String :=
      match validator with
      | none => none
      | some v => v (candidateOf record sys_id)
    match vres with
    | none =>
      { ok := true, error := none, errors := [],
        record := some record, normalized := some (normalizedOf record sys_id) }
    | some m =>
      { ok := false, error := none, errors := [m],
        record := some record, normalized := some (normalizedOf record sys_id) }

/-- The dict `run` returns: the four unconditional keys plus the two keys
only present after a publish attempt (`none` = key absent). -/
structure RunResult where
  plan : RawPlan
  fingerprint : Nat
  mode : String
  published : Bool
  service_now : Option PublishRecord
  verification : Option VerifyResult
deriving DecidableEq

/-- `KBPublisherAgent.run`, lines 215-254.  `chatData` is the oracle for the
LLM chat call plus JSON decoding of `_plan_from_sop` lines 44-57 (`.error`
is the `RuntimeError` raised there); the remaining control flow follows the
source line by line.  The second component is the ghost store-call trace. -/
def runKB (st : Store) (chatData : Except String RawPlan) (validator : Validator)
    (kb_base_sys_id : String) (category : Option String) (tags : List String)
    (attachments : List String) (publish_if_allowed : Bool)
    (existing_sys_id : Option String) : Except RunErr RunResult × List Call :=
  match chatData with
  | .error msg => (.error (.runtime msg), [])
  | .ok data =>
    let plan := normalizePlan (planFromSop data kb_base_sys_id category tags)
    match validatePlan validator plan with
    | .error e => (.error e, [])
    | .ok _ =>
      let fingerprint := content_fingerprint (docOfPlan plan)
      let mode := if truthyStr existing_sys_id then "update" else "create"
      if publish_if_allowed then
        match (actPublish st plan attachments existing_sys_id).1 with
        | .error e => (.error e, (actPublish st plan attachments existing_sys_id).2)
        | .ok pr =>
          match pr.record.sys_id with
          | some sid =>
            (.ok { plan := plan, fingerprint := fingerprint, mode := mode,
                   published := true, service_now := some pr,
                   verification := some (verify st validator sid) },
             (actPublish st plan attachments existing_sys_id).2 ++ [.get sid])
          | none =>
            (.ok { plan := plan, fingerprint := fingerprint, mode := mode,
                   published := true, service_now := some pr,
                   verification := some { ok := false, error := some "Missing sys_id",
                                          errors := [], record := none, normalized := none } },
             (actPublish st plan attachments existing_sys_id).2)
      else
        (.ok { plan := plan, fingerprint := fingerprint, mode := mode,
               published := false, service_now := none, verification := none }, [])

/-! ### The generation-backend adapter (spec §4.1) -/

/-- Outcome of invoking the backend with one calling shape: a result, a
call-signature mismatch (the only soft failure), or any other failure. -/
inductive ShapeOutcome where
  | ok (text : String) : ShapeOutcome
  | sigMismatch (msg : String) : ShapeOutcome
  | fail (msg : String) : ShapeOutcome
deriving DecidableEq

/-- The fixed ordered set of invocation shapes spec §4.1 names. -/
inductive CallShape where
  | structuredHint : CallShape
  | plain : CallShape
  | instructionFirst : CallShape
  | instructionFirstHint : CallShape
deriving DecidableEq

/-- The order in which the adapter attempts the shapes. -/
def shapeOrder : List CallShape :=
  [.structuredHint, .plain, .instructionFirst, .instructionFirstHint]

/-- Errors the adapter can produce. -/
inductive ChatErr where
  | backend (msg : String) : ChatErr
  | adapterExhausted (msgs : List String) : ChatErr
deriving DecidableEq

/-- Modelled from the spec: the probing loop of the ResponseAdapter in
`core/llm/client.py`, which is not under `src/`.  Spec §4.1: try each shape
in order; return the first accepted result; only a call-signature mismatch
advances to the next shape, any other failure propagates immediately;
accumulate the mismatch messages along the way. -/
def chatGo (backend : CallShape → ShapeOutcome) :
    List CallShape → List String → Except ChatErr String
  | [], msgs => .error (.adapterExhausted msgs.reverse)
  | s :: rest, msgs =>
    match backend s with
    | .ok t => .ok t
    | .sigMismatch m => chatGo backend rest (m :: msgs)
    | .fail m => .error (.backend m)

/-- Modelled from the spec: the ResponseAdapter entry point — probe the
fixed shape list; when every shape has failed, fail with `AdapterExhausted`
embedding every attempted error message. -/
def chatAdapter (backend : CallShape → ShapeOutcome) : Except ChatErr String :=
  chatGo backend shapeOrder []

/-! ### Concrete fixtures used by counterexamples and witnesses -/

/-- A raw LLM plan for an SOP, as in the spec's end-to-end scenario. -/
def dataA : RawPlan :=
  { short_description := some "Reboot", html := some "<p>off/on</p>",
    kb_base_sys_id := none, category := none, valid_to := none,
    tags := .list ["hardware"] }

/-- The plan of the spec's tag-merge example. -/
def dataTagEx : RawPlan :=
  { dataA with tags := .list ["ops", "OPS", "ops", " "] }

/-- A plan whose tags value is a single comma-delimited string. -/
def dataStrTags : RawPlan :=
  { dataA with tags := .str "a,b" }

/-- A record as a store would return it after a successful create. -/
def recS1 : Record :=
  { sys_id := some "S1", number := some "KB0001", short_description := some "Reboot",
    text := some "<p>off/on</p>", article_body := none,
    kb_knowledge_base := some "kb001", category := none, valid_to := none,
    tags := .absent }

/-- A create response that omits `sys_id`. -/
def recNoId : Record :=
  { recS1 with sys_id := none, number := none }

/-- A store whose create response has no identifier. -/
def storeNoId : Store :=
  { kb_create := fun _ => .ok recNoId
    kb_update := fun _ _ => .ok recNoId
    kb_get := fun _ => .error "record not found"
    kb_attach := fun _ p => .ok ("att:" ++ p) }

/-- A store whose create call raises. -/
def storeBoom : Store :=
  { kb_create := fun _ => .error "transport failure"
    kb_update := fun _ _ => .error "transport failure"
    kb_get := fun _ => .error "record not found"
    kb_attach := fun _ _ => .error "transport failure" }

/-- A store that accepts the write but whose read-back has drifted content. -/
def storeDrift : Store :=
  { kb_create := fun _ => .ok recS1
    kb_update := fun _ _ => .ok recS1
    kb_get := fun _ => .ok { recS1 with text := some "<p>TAMPERED</p>" }
    kb_attach := fun _ p => .ok ("att:" ++ p) }

/-- A well-behaved store. -/
def storeOk : Store :=
  { kb_create := fun _ => .ok recS1
    kb_update := fun id _ => .ok { recS1 with sys_id := some id }
    kb_get := fun i => .ok { recS1 with sys_id := some i }
    kb_attach := fun _ p => .ok ("att:" ++ p) }

/-- Spec §3's notion of a (schema-)valid plan, used to read claim C8's
"valid plan": the required string fields are present and `tags` is a
sequence of strings (the spec's data model: "`tags` (ordered sequence of
unique strings)"). -/
def SpecValidPlan (p : RawPlan) : Prop :=
  p.short_description ≠ none ∧ p.html ≠ none ∧ p.kb_base_sys_id ≠ none ∧
    ∃ ts, p.tags = .list ts

/-- The normalized pipeline plan of a run (`run` lines 228-229), shared by
several statements. -/
def pipePlan (data : RawPlan) (kb : String) (cat : Option String)
    (tags : List String) : RawPlan :=
  normalizePlan (planFromSop data kb cat tags)

/-- `dataA` after planning and normalization against base `kb001`. -/
def planA1 : RawPlan := { dataA with kb_base_sys_id := some "kb001" }

/-- The write payload the acting stage derives from `planA1`. -/
def argsA : WriteArgs :=
  { short_description := "Reboot", body := "<p>off/on</p>", kb_base := "kb001",
    category := none, valid_to := none, tags := some "hardware" }

/-- Default used only to name results extracted from concrete runs. -/
def dfltRun : RunResult :=
  { plan := dataA, fingerprint := 0, mode := "", published := false,
    service_now := none, verification := none }

/-- A run against the store whose create response has no identifier. -/
def runNoId := runKB storeNoId (.ok dataA) none "kb001" none [] ["a.txt"] true none

/-- The result that run returns. -/
def resNoId : RunResult := runNoId.1.toOption.getD dfltRun

/-- A run whose create call raises. -/
def runBoom := runKB storeBoom (.ok dataA) none "kb001" none [] [] true none

/-- A run whose read-back has drifted content. -/
def runDrift := runKB storeDrift (.ok dataA) none "kb001" none [] [] true none

/-- The result of the drifted run. -/
def resDrift : RunResult := runDrift.1.toOption.getD dfltRun

/-- The verification produced inside the drifted run. -/
def driftVR : VerifyResult := verify storeDrift none "S1"

/-- A run with the publish flag false. -/
def runPF := runKB storeOk (.ok dataA) none "kb001" none [] [] false none

/-- Its result. -/
def resPF : RunResult := runPF.1.toOption.getD dfltRun

/-- A run with an existing record identifier supplied. -/
def runUpd := runKB storeOk (.ok dataA) none "kb001" none [] [] true (some "E1")

/-- Its result. -/
def resUpd : RunResult := runUpd.1.toOption.getD dfltRun

/-- A run with no existing record identifier. -/
def runCre := runKB storeOk (.ok dataA) none "kb001" none [] [] true none

/-- Its result. -/
def resCre : RunResult := runCre.1.toOption.getD dfltRun

/-- A schema-validator oracle that rejects every document. -/
def vBad : Doc → Option String := fun _ => some "tags is a required property"

/-- A backend for which every invocation shape is a signature mismatch. -/
def bMis : CallShape → ShapeOutcome := fun _ => .sigMismatch "unexpected keyword argument"

/-- A backend whose second shape fails for a non-signature reason. -/
def bSnd : CallShape → ShapeOutcome := fun s =>
  match s with
  | .structuredHint => .sigMismatch "unexpected keyword argument"
  | .plain => .fail "rate limited"
  | _ => .ok "unused"

/-- A backend whose first shape succeeds. -/
def bFst : CallShape → ShapeOutcome := fun _ => .ok "plan json"

/-! ### Helper lemmas: Python `strip`, tag cleaning, dedup -/

theorem head?_dropWhile {α} (p : α → Bool) (l : List α) {a : α}
    (h : (l.dropWhile p).head? = some a) : p a = false := by
  induction l with
  | nil => simp [List.dropWhile] at h
  | cons x xs ih =>
    rw [List.dropWhile_cons] at h
    by_cases hx : p x
    · simp only [if_pos hx] at h
      exact ih h
    · simp only [if_neg hx, List.head?_cons, Option.some.injEq] at h
      subst h
      exact Bool.eq_false_iff.mpr hx

theorem dropWhile_eq_self {α} (p : α → Bool) (l : List α)
    (h : ∀ a, l.head? = some a → p a = false) : l.dropWhile p = l := by
  cases l with
  | nil => rfl
  | cons x xs =>
    have hx := h x rfl
    rw [List.dropWhile_cons, if_neg (by simp [hx])]

theorem dropWhile_append_eq {α} (p : α → Bool) (l : List α) :
    ∃ t, t ++ l.dropWhile p = l := by
  induction l with
  | nil => exact ⟨[], rfl⟩
  | cons x xs ih =>
    rw [List.dropWhile_cons]
    by_cases hx : p x
    · obtain ⟨t, ht⟩ := ih
      exact ⟨x :: t, by simp [if_pos hx, ht]⟩
    · exact ⟨[], by simp [if_neg hx]⟩

theorem head?_append_left {α} {r : List α} (u : List α) {a : α}
    (h : r.head? = some a) : (r ++ u).head? = some a := by
  cases r with
  | nil => simp at h
  | cons x xs => simpa using h

theorem pyStripL_head {l : List Char} {a : Char}
    (h : (pyStripL l).head? = some a) : isPyWS a = false := by
  unfold pyStripL at h
  obtain ⟨t, ht⟩ := dropWhile_append_eq isPyWS (l.dropWhile isPyWS).reverse
  have hm : l.dropWhile isPyWS =
      ((l.dropWhile isPyWS).reverse.dropWhile isPyWS).reverse ++ t.reverse := by
    have := congrArg List.reverse ht
    simpa [List.reverse_append] using this.symm
  have : (l.dropWhile isPyWS).head? = some a := by
    rw [hm]
    exact head?_append_left _ h
  exact head?_dropWhile isPyWS l this

theorem pyStripL_revhead {l : List Char} {a : Char}
    (h : (pyStripL l).reverse.head? = some a) : isPyWS a = false := by
  unfold pyStripL at h
  rw [List.reverse_reverse] at h
  exact head?_dropWhile isPyWS _ h

theorem pyStripL_eq_self {l : List Char}
    (h1 : ∀ a, l.head? = some a → isPyWS a = false)
    (h2 : ∀ a, l.reverse.head? = some a → isPyWS a = false) :
    pyStripL l = l := by
  unfold pyStripL
  rw [dropWhile_eq_self isPyWS l h1, dropWhile_eq_self isPyWS l.reverse h2,
    List.reverse_reverse]

theorem pyStripL_idem (l : List Char) : pyStripL (pyStripL l) = pyStripL l :=
  pyStripL_eq_self (fun _ h => pyStripL_head h) (fun _ h => pyStripL_revhead h)

theorem pyStrip_idem (s : String) : pyStrip (pyStrip s) = pyStrip s := by
  unfold pyStrip
  exact congrArg String.mk (pyStripL_idem s.data)

theorem mem_cleanTags {x : String} {ts : List String} :
    x ∈ cleanTags ts ↔ (∃ t ∈ ts, pyStrip t = x) ∧ x ≠ "" := by
  simp [cleanTags, List.mem_filter, List.mem_map]

theorem cleanTags_stripped {x : String} {ts : List String} (h : x ∈ cleanTags ts) :
    pyStrip x = x ∧ x ≠ "" := by
  obtain ⟨⟨t, _, ht⟩, hne⟩ := mem_cleanTags.mp h
  exact ⟨by rw [← ht, pyStrip_idem], hne⟩

theorem cleanTags_idem (ts : List String) : cleanTags (cleanTags ts) = cleanTags ts := by
  have hmap : (cleanTags ts).map pyStrip = cleanTags ts := by
    rw [show (cleanTags ts).map pyStrip = (cleanTags ts).map id from
      List.map_congr_left (fun x hx => (cleanTags_stripped hx).1), List.map_id]
  show ((cleanTags ts).map pyStrip).filter (fun s => s ≠ "") = cleanTags ts
  rw [hmap]
  exact List.filter_eq_self.mpr (fun x hx => by
    simpa using (cleanTags_stripped hx).2)

theorem mem_dedupSeen {x : String} : ∀ {l seen : List String},
    x ∈ dedupSeen seen l ↔ x ∈ l ∧ x ∉ seen := by
  intro l
  induction l with
  | nil => simp [dedupSeen]
  | cons t rest ih =>
    intro seen
    by_cases ht : t ∈ seen
    · rw [dedupSeen, if_pos ht, ih]
      constructor
      · rintro ⟨hx, hs⟩
        exact ⟨List.mem_cons_of_mem _ hx, hs⟩
      · rintro ⟨hx, hs⟩
        rcases List.mem_cons.mp hx with h | h
        · exact absurd (h ▸ ht) hs
        · exact ⟨h, hs⟩
    · rw [dedupSeen, if_neg ht]
      constructor
      · intro hx
        rcases List.mem_cons.mp hx with h | h
        · exact ⟨h ▸ List.mem_cons_self t rest, h ▸ ht⟩
        · obtain ⟨hr, hs⟩ := ih.mp h
          exact ⟨List.mem_cons_of_mem _ hr,
            fun hmem => hs (List.mem_cons_of_mem _ hmem)⟩
      · rintro ⟨hx, hs⟩
        rcases List.mem_cons.mp hx with h | h
        · exact h ▸ List.mem_cons_self t _
        · by_cases hxt : x = t
          · exact hxt ▸ List.mem_cons_self t _
          · exact List.mem_cons_of_mem _ (ih.mpr ⟨h, by
              simp only [List.mem_cons]
              rintro (h' | h')
              · exact hxt h'
              · exact hs h'⟩)

theorem nodup_dedupSeen : ∀ (l seen : List String), (dedupSeen seen l).Nodup := by
  intro l
  induction l with
  | nil => intro seen; simp [dedupSeen]
  | cons t rest ih =>
    intro seen
    by_cases ht : t ∈ seen
    · rw [dedupSeen, if_pos ht]; exact ih seen
    · rw [dedupSeen, if_neg ht]
      refine List.nodup_cons.mpr ⟨?_, ih (t :: seen)⟩
      intro hmem
      exact (mem_dedupSeen.mp hmem).2 (List.mem_cons_self t seen)

theorem sublist_dedupSeen : ∀ (l seen : List String),
    List.Sublist (dedupSeen seen l) l := by
  intro l
  induction l with
  | nil => intro seen; simp [dedupSeen]
  | cons t rest ih =>
    intro seen
    by_cases ht : t ∈ seen
    · rw [dedupSeen, if_pos ht]
      exact List.Sublist.cons t (ih seen)
    · rw [dedupSeen, if_neg ht]
      exact List.Sublist.cons₂ t (ih (t :: seen))

/-! ### Helper lemmas: sanitizer, normalization and planning stages -/

theorem filter_idem {α} (p : α → Bool) (l : List α) :
    (l.filter p).filter p = l.filter p :=
  List.filter_eq_self.mpr (fun _ ha => List.of_mem_filter ha)

theorem sanitize_html_idem (s : String) :
    sanitize_html (sanitize_html s) = sanitize_html s := by
  unfold sanitize_html
  exact congrArg String.mk (filter_idem _ s.data)

theorem planFromSop_sd (d : RawPlan) (kb : String) (c : Option String)
    (ts : List String) : (planFromSop d kb c ts).short_description = d.short_description := by
  unfold planFromSop
  dsimp only
  split_ifs <;> rfl

theorem planFromSop_html (d : RawPlan) (kb : String) (c : Option String)
    (ts : List String) : (planFromSop d kb c ts).html = d.html := by
  unfold planFromSop
  dsimp only
  split_ifs <;> rfl

theorem planFromSop_kb (d : RawPlan) (kb : String) (c : Option String)
    (ts : List String) :
    (planFromSop d kb c ts).kb_base_sys_id = some (d.kb_base_sys_id.getD kb) := by
  unfold planFromSop
  dsimp only
  split_ifs <;> rfl

theorem normalizePlan_sd (p : RawPlan) :
    (normalizePlan p).short_description = p.short_description := rfl

theorem normalizePlan_html (p : RawPlan) :
    (normalizePlan p).html = some (sanitize_html (p.html.getD "")) := rfl

theorem normalizePlan_kb (p : RawPlan) :
    (normalizePlan p).kb_base_sys_id = p.kb_base_sys_id := rfl

theorem pipePlan_fields (data : RawPlan) (kb : String) (cat : Option String)
    (tags : List String) :
    (pipePlan data kb cat tags).short_description = data.short_description ∧
    (pipePlan data kb cat tags).html = some (sanitize_html (data.html.getD "")) ∧
    (pipePlan data kb cat tags).kb_base_sys_id = some (data.kb_base_sys_id.getD kb) := by
  refine ⟨?_, ?_, ?_⟩
  · rw [pipePlan, normalizePlan_sd, planFromSop_sd]
  · rw [pipePlan, normalizePlan_html, planFromSop_html]
  · rw [pipePlan, normalizePlan_kb, planFromSop_kb]

/-! ### Helper lemmas: the acting stage -/

theorem orElse_self {α} (o : Option α) : o.orElse (fun _ => o) = o := by
  cases o <;> rfl

theorem attachLoop_fun {st : Store} {sid : Option String} {av : String → String}
    (hat : ∀ p, st.kb_attach sid p = .ok (av p)) : ∀ (ps : List String),
    attachLoop st sid ps = (.ok (ps.map av), ps.map (Call.attach sid)) := by
  intro ps
  induction ps with
  | nil => rfl
  | cons p rest ih =>
    rw [attachLoop, hat p, ih]
    rfl

theorem attachLoop_err {st : Store} {sid : Option String} :
    ∀ {ps : List String} {e : RunErr}, (attachLoop st sid ps).1 = .error e →
    ∃ m, e = .transport m := by
  intro ps
  induction ps with
  | nil => intro e h; simp [attachLoop] at h
  | cons p rest ih =>
    intro e h
    rw [attachLoop] at h
    cases hat : st.kb_attach sid p with
    | error m =>
      rw [hat] at h
      simp at h
      exact ⟨m, h.symm⟩
    | ok v =>
      rw [hat] at h
      simp only at h
      cases hrest : (attachLoop st sid rest).1 with
      | error e' =>
        rw [hrest] at h
        simp [Except.map] at h
        subst h
        exact ih hrest
      | ok vs =>
        rw [hrest] at h
        simp [Except.map] at h

theorem attachLoop_calls {st : Store} {sid : Option String} {c : Call} :
    ∀ {ps : List String}, c ∈ (attachLoop st sid ps).2 →
    ∃ p, c = .attach sid p := by
  intro ps
  induction ps with
  | nil => intro h; simp [attachLoop] at h
  | cons p rest ih =>
    intro h
    rw [attachLoop] at h
    cases hat : st.kb_attach sid p with
    | error m =>
      rw [hat] at h
      simp at h
      exact ⟨p, h⟩
    | ok v =>
      rw [hat] at h
      simp only [List.mem_cons] at h
      rcases h with h | h
      · exact ⟨p, h⟩
      · exact ih h

theorem actPublish_err_shape {st : Store} {plan : RawPlan} {atts : List String}
    {ex : Option String} {e : RunErr}
    (h : (actPublish st plan atts ex).1 = .error e) :
    (∃ k, e = .keyError k) ∨ ∃ m, e = .transport m := by
  unfold actPublish at h
  cases hsd : plan.short_description with
  | none =>
    rw [hsd] at h
    simp at h
    exact .inl ⟨"short_description", h.symm⟩
  | some sd =>
    rw [hsd] at h
    cases hh : plan.html with
    | none =>
      rw [hh] at h
      simp at h
      exact .inl ⟨"html", h.symm⟩
    | some html =>
      rw [hh] at h
      cases hkb : plan.kb_base_sys_id with
      | none =>
        rw [hkb] at h
        simp at h
        exact .inl ⟨"kb_base_sys_id", h.symm⟩
      | some kb =>
        rw [hkb] at h
        simp only at h
        by_cases hex : truthyStr ex = true
        · rw [if_pos hex] at h
          cases hup : st.kb_update (ex.getD "") (buildArgs plan sd html kb) with
          | error m =>
            rw [hup] at h
            simp at h
            exact .inr ⟨m, h.symm⟩
          | ok record =>
            rw [hup] at h
            simp only [finishPublish] at h
            cases hal : (attachLoop st (some (ex.getD "")) atts).1 with
            | error e' =>
              rw [hal] at h
              simp [Except.map] at h
              subst h
              exact .inr (attachLoop_err hal)
            | ok vs =>
              rw [hal] at h
              simp [Except.map] at h
        · rw [if_neg hex] at h
          cases hcr : st.kb_create (buildArgs plan sd html kb) with
          | error m =>
            rw [hcr] at h
            simp at h
            exact .inr ⟨m, h.symm⟩
          | ok record =>
            rw [hcr] at h
            simp only [finishPublish] at h
            cases hal : (attachLoop st record.sys_id atts).1 with
            | error e' =>
              rw [hal] at h
              simp [Except.map] at h
              subst h
              exact .inr (attachLoop_err hal)
            | ok vs =>
              rw [hal] at h
              simp [Except.map] at h

theorem actPublish_no_create {st : Store} {plan : RawPlan} {atts : List String}
    {ex : Option String} (hex : truthyStr ex = true) (a : WriteArgs) :
    Call.create a ∉ (actPublish st plan atts ex).2 := by
  intro hmem
  unfold actPublish at hmem
  cases hsd : plan.short_description with
  | none => rw [hsd] at hmem; simp at hmem
  | some sd =>
    rw [hsd] at hmem
    cases hh : plan.html with
    | none => rw [hh] at hmem; simp at hmem
    | some html =>
      rw [hh] at hmem
      cases hkb : plan.kb_base_sys_id with
      | none => rw [hkb] at hmem; simp at hmem
      | some kb =>
        rw [hkb] at hmem
        simp only [if_pos hex] at hmem
        cases hup : st.kb_update (ex.getD "") (buildArgs plan sd html kb) with
        | error m => rw [hup] at hmem; simp at hmem
        | ok record =>
          rw [hup] at hmem
          simp only [finishPublish, List.mem_cons] at hmem
          rcases hmem with hmem | hmem
          · exact Call.noConfusion hmem
          · obtain ⟨p, hp⟩ := attachLoop_calls hmem
            exact Call.noConfusion hp

theorem actPublish_create_mem {st : Store} {plan : RawPlan} {atts : List String}
    {ex : Option String} {sd html kb : String}
    (hex : truthyStr ex = false) (hsd : plan.short_description = some sd)
    (hh : plan.html = some html) (hkb : plan.kb_base_sys_id = some kb) :
    Call.create (buildArgs plan sd html kb) ∈ (actPublish st plan atts ex).2 := by
  unfold actPublish
  rw [hsd, hh, hkb]
  simp only [if_neg (show ¬(truthyStr ex = true) by simp [hex])]
  cases hcr : st.kb_create (buildArgs plan sd html kb) with
  | error m => simp
  | ok record => simp [finishPublish]

theorem actPublish_update_mem {st : Store} {plan : RawPlan} {atts : List String}
    {ex : Option String} {sd html kb : String}
    (hex : truthyStr ex = true) (hsd : plan.short_description = some sd)
    (hh : plan.html = some html) (hkb : plan.kb_base_sys_id = some kb) :
    Call.update (ex.getD "") (buildArgs plan sd html kb) ∈ (actPublish st plan atts ex).2 := by
  unfold actPublish
  rw [hsd, hh, hkb]
  simp only [if_pos hex]
  cases hup : st.kb_update (ex.getD "") (buildArgs plan sd html kb) with
  | error m => simp
  | ok record => simp [finishPublish]

theorem actPublish_create_ok {st : Store} {plan : RawPlan}
    {sd html kb : String} {rrec : Record} {av : String → String}
    (atts : List String) (ex : Option String)
    (hex : truthyStr ex = false) (hsd : plan.short_description = some sd)
    (hh : plan.html = some html) (hkb : plan.kb_base_sys_id = some kb)
    (hcr : st.kb_create (buildArgs plan sd html kb) = .ok rrec)
    (hat : ∀ p, st.kb_attach rrec.sys_id p = .ok (av p)) :
    actPublish st plan atts ex =
      (.ok { record := rrec, mode := "create", attachments := atts.map av },
       .create (buildArgs plan sd html kb) :: atts.map (Call.attach rrec.sys_id)) := by
  unfold actPublish
  rw [hsd, hh, hkb]
  simp only [if_neg (show ¬(truthyStr ex = true) by simp [hex])]
  rw [hcr]
  simp only [finishPublish, attachLoop_fun hat atts, Except.map, orElse_self]

theorem actPublish_create_err {st : Store} {plan : RawPlan}
    {sd html kb : String} {msg : String}
    (atts : List String) (ex : Option String)
    (hex : truthyStr ex = false) (hsd : plan.short_description = some sd)
    (hh : plan.html = some html) (hkb : plan.kb_base_sys_id = some kb)
    (hcr : st.kb_create (buildArgs plan sd html kb) = .error msg) :
    actPublish st plan atts ex =
      (.error (.transport msg), [.create (buildArgs plan sd html kb)]) := by
  unfold actPublish
  rw [hsd, hh, hkb]
  simp only [if_neg (show ¬(truthyStr ex = true) by simp [hex])]
  rw [hcr]

/-! ### Helper lemmas: the run pipeline -/

theorem run_chat_err (st : Store) (m : String) (validator : Validator)
    (kb : String) (cat : Option String) (ts atts : List String) (pub : Bool)
    (ex : Option String) :
    runKB st (.error m) validator kb cat ts atts pub ex = (.error (.runtime m), []) := rfl

theorem run_nopublish (st : Store) (cd : Except String RawPlan) (validator : Validator)
    (kb : String) (cat : Option String) (ts atts : List String) (ex : Option String) :
    (runKB st cd validator kb cat ts atts false ex).2 = [] ∧
    ∀ r, (runKB st cd validator kb cat ts atts false ex).1 = .ok r →
      r.published = false ∧ r.service_now = none ∧ r.verification = none := by
  cases cd with
  | error msg => simp [runKB]
  | ok data =>
    simp only [runKB]
    cases hv : validatePlan validator (normalizePlan (planFromSop data kb cat ts)) with
    | error e => simp [hv]
    | ok u =>
      cases u
      simp only [hv, Bool.false_eq_true, if_false]
      refine ⟨trivial, ?_⟩
      intro r hr
      simp only [Except.ok.injEq] at hr
      subst hr
      exact ⟨rfl, rfl, rfl⟩

theorem runKB_mode {st : Store} {cd : Except String RawPlan} {validator : Validator}
    {kb : String} {cat : Option String} {ts atts : List String} {pub : Bool}
    {ex : Option String} {r : RunResult}
    (h : (runKB st cd validator kb cat ts atts pub ex).1 = .ok r) :
    r.mode = if truthyStr ex = true then "update" else "create" := by
  cases cd with
  | error msg => simp [runKB] at h
  | ok data =>
    simp only [runKB] at h
    cases hv : validatePlan validator (normalizePlan (planFromSop data kb cat ts)) with
    | error e => rw [hv] at h; simp at h
    | ok u =>
      cases u
      rw [hv] at h
      simp only at h
      cases pub with
      | false =>
        simp only [Bool.false_eq_true, if_false, Except.ok.injEq] at h
        subst h
        rfl
      | true =>
        simp only [if_true] at h
        cases hap : (actPublish st (normalizePlan (planFromSop data kb cat ts)) atts ex).1 with
        | error e => rw [hap] at h; simp at h
        | ok pr =>
          rw [hap] at h
          dsimp only at h
          cases hsid : pr.record.sys_id with
          | some sid =>
            rw [hsid] at h
            simp only [Except.ok.injEq] at h
            subst h
            rfl
          | none =>
            rw [hsid] at h
            simp only [Except.ok.injEq] at h
            subst h
            rfl

theorem runKB_no_create {st : Store} {cd : Except String RawPlan} {validator : Validator}
    {kb : String} {cat : Option String} {ts atts : List String} {pub : Bool}
    {ex : Option String} (hex : truthyStr ex = true) (a : WriteArgs) :
    Call.create a ∉ (runKB st cd validator kb cat ts atts pub ex).2 := by
  intro hmem
  cases cd with
  | error msg => simp [runKB] at hmem
  | ok data =>
    simp only [runKB] at hmem
    cases hv : validatePlan validator (normalizePlan (planFromSop data kb cat ts)) with
    | error e => rw [hv] at hmem; simp at hmem
    | ok u =>
      cases u
      rw [hv] at hmem
      dsimp only at hmem
      cases pub with
      | false => simp at hmem
      | true =>
        simp only [if_true] at hmem
        cases hap : (actPublish st (normalizePlan (planFromSop data kb cat ts)) atts ex).1 with
        | error e =>
          rw [hap] at hmem
          dsimp only at hmem
          exact actPublish_no_create hex a hmem
        | ok pr =>
          rw [hap] at hmem
          dsimp only at hmem
          cases hsid : pr.record.sys_id with
          | some sid =>
            rw [hsid] at hmem
            dsimp only at hmem
            rw [List.mem_append] at hmem
            rcases hmem with hmem | hmem
            · exact actPublish_no_create hex a hmem
            · simp at hmem
          | none =>
            rw [hsid] at hmem
            dsimp only at hmem
            exact actPublish_no_create hex a hmem

theorem runKB_pub_trace {st : Store} {data : RawPlan} {validator : Validator}
    {kb : String} {cat : Option String} {ts atts : List String} {ex : Option String}
    (hval : validatePlan validator (normalizePlan (planFromSop data kb cat ts)) = .ok ()) :
    ∀ c ∈ (actPublish st (normalizePlan (planFromSop data kb cat ts)) atts ex).2,
      c ∈ (runKB st (.ok data) validator kb cat ts atts true ex).2 := by
  intro c hc
  simp only [runKB]
  rw [hval]
  dsimp only
  simp only [if_true]
  cases hap : (actPublish st (normalizePlan (planFromSop data kb cat ts)) atts ex).1 with
  | error e => exact hc
  | ok pr =>
    dsimp only
    cases hsid : pr.record.sys_id with
    | some sid =>
      dsimp only
      exact List.mem_append.mpr (.inl hc)
    | none => exact hc

theorem runKB_fp {st : Store} {cd : Except String RawPlan} {validator : Validator}
    {kb : String} {cat : Option String} {ts atts : List String} {pub : Bool}
    {ex : Option String} {r : RunResult}
    (h : (runKB st cd validator kb cat ts atts pub ex).1 = .ok r) :
    r.fingerprint = content_fingerprint (docOfPlan r.plan) := by
  cases cd with
  | error msg => simp [runKB] at h
  | ok data =>
    simp only [runKB] at h
    cases hv : validatePlan validator (normalizePlan (planFromSop data kb cat ts)) with
    | error e => rw [hv] at h; simp at h
    | ok u =>
      cases u
      rw [hv] at h
      dsimp only at h
      cases pub with
      | false =>
        simp only [Bool.false_eq_true, if_false, Except.ok.injEq] at h
        subst h
        rfl
      | true =>
        simp only [if_true] at h
        cases hap : (actPublish st (normalizePlan (planFromSop data kb cat ts)) atts ex).1 with
        | error e => rw [hap] at h; simp at h
        | ok pr =>
          rw [hap] at h
          dsimp only at h
          cases hsid : pr.record.sys_id with
          | some sid =>
            rw [hsid] at h
            simp only [Except.ok.injEq] at h
            subst h
            rfl
          | none =>
            rw [hsid] at h
            simp only [Except.ok.injEq] at h
            subst h
            rfl

theorem runKB_schema_err {st : Store} {data : RawPlan} {v : Doc → Option String}
    {kb : String} {cat : Option String} {ts atts : List String} {pub : Bool}
    {ex : Option String} {m : String}
    (hv : v (docOfPlan (normalizePlan (planFromSop data kb cat ts))) = some m) :
    runKB st (.ok data) (some v) kb cat ts atts pub ex =
      (.error (.schema ("Plan failed schema validation: " ++ m)), []) := by
  simp only [runKB, validatePlan, hv]

theorem runKB_no_schema_err {st : Store} {cd : Except String RawPlan}
    {kb : String} {cat : Option String} {ts atts : List String} {pub : Bool}
    {ex : Option String} (m : String) :
    (runKB st cd none kb cat ts atts pub ex).1 ≠ .error (.schema m) := by
  intro h
  cases cd with
  | error msg =>
    rw [run_chat_err] at h
    simp at h
  | ok data =>
    simp only [runKB, validatePlan] at h
    cases pub with
    | false => simp at h
    | true =>
      simp only [if_true] at h
      cases hap : (actPublish st (normalizePlan (planFromSop data kb cat ts)) atts ex).1 with
      | error e =>
        rw [hap] at h
        dsimp only at h
        simp only [Except.error.injEq] at h
        rcases actPublish_err_shape hap with ⟨k, hk⟩ | ⟨mm, hmm⟩
        · rw [h] at hk
          exact RunErr.noConfusion hk
        · rw [h] at hmm
          exact RunErr.noConfusion hmm
      | ok pr =>
        rw [hap] at h
        dsimp only at h
        cases hsid : pr.record.sys_id with
        | some sid => rw [hsid] at h; simp at h
        | none => rw [hsid] at h; simp at h

theorem runKB_create_noid {st : Store} {data : RawPlan} {validator : Validator}
    {kb : String} {cat : Option String} {ts atts : List String} {sd : String}
    {rrec : Record} {av : String → String}
    (hval : validatePlan validator (normalizePlan (planFromSop data kb cat ts)) = .ok ())
    (hsd : data.short_description = some sd)
    (hcr : st.kb_create (buildArgs (normalizePlan (planFromSop data kb cat ts)) sd
      (sanitize_html (data.html.getD "")) (data.kb_base_sys_id.getD kb)) = .ok rrec)
    (hsys : rrec.sys_id = none)
    (hat : ∀ p, st.kb_attach none p = .ok (av p)) :
    runKB st (.ok data) validator kb cat ts atts true none =
      (.ok { plan := normalizePlan (planFromSop data kb cat ts)
             fingerprint := content_fingerprint (docOfPlan (normalizePlan (planFromSop data kb cat ts)))
             mode := "create"
             published := true
             service_now := some { record := rrec, mode := "create", attachments := atts.map av }
             verification := some { ok := false, error := some "Missing sys_id",
                                    errors := [], record := none, normalized := none } },
       .create (buildArgs (normalizePlan (planFromSop data kb cat ts)) sd
         (sanitize_html (data.html.getD "")) (data.kb_base_sys_id.getD kb)) ::
         atts.map (Call.attach none)) := by
  have h1 : (normalizePlan (planFromSop data kb cat ts)).short_description = some sd := by
    rw [normalizePlan_sd, planFromSop_sd, hsd]
  have h2 : (normalizePlan (planFromSop data kb cat ts)).html
      = some (sanitize_html (data.html.getD "")) := by
    rw [normalizePlan_html, planFromSop_html]
  have h3 : (normalizePlan (planFromSop data kb cat ts)).kb_base_sys_id
      = some (data.kb_base_sys_id.getD kb) := by
    rw [normalizePlan_kb, planFromSop_kb]
  have hat' : ∀ p, st.kb_attach rrec.sys_id p = .ok (av p) := by
    intro p
    rw [hsys]
    exact hat p
  have hap := actPublish_create_ok atts none rfl h1 h2 h3 hcr hat'
  simp only [runKB]
  rw [hval]
  dsimp only
  simp only [if_true, hap]
  rw [hsys]
  rfl

theorem runKB_create_transport {st : Store} {data : RawPlan} {validator : Validator}
    {kb : String} {cat : Option String} {ts atts : List String} {sd msg : String}
    (hval : validatePlan validator (normalizePlan (planFromSop data kb cat ts)) = .ok ())
    (hsd : data.short_description = some sd)
    (hcr : st.kb_create (buildArgs (normalizePlan (planFromSop data kb cat ts)) sd
      (sanitize_html (data.html.getD "")) (data.kb_base_sys_id.getD kb)) = .error msg) :
    runKB st (.ok data) validator kb cat ts atts true none =
      (.error (.transport msg),
       [.create (buildArgs (normalizePlan (planFromSop data kb cat ts)) sd
         (sanitize_html (data.html.getD "")) (data.kb_base_sys_id.getD kb))]) := by
  have h1 : (normalizePlan (planFromSop data kb cat ts)).short_description = some sd := by
    rw [normalizePlan_sd, planFromSop_sd, hsd]
  have h2 : (normalizePlan (planFromSop data kb cat ts)).html
      = some (sanitize_html (data.html.getD "")) := by
    rw [normalizePlan_html, planFromSop_html]
  have h3 : (normalizePlan (planFromSop data kb cat ts)).kb_base_sys_id
      = some (data.kb_base_sys_id.getD kb) := by
    rw [normalizePlan_kb, planFromSop_kb]
  have hap := actPublish_create_err atts none rfl h1 h2 h3 hcr
  simp only [runKB]
  rw [hval]
  dsimp only
  simp only [if_true, hap]

/-! ### Helper lemmas: verification -/

theorem verify_none_ok {st : Store} {sid : String} {record : Record}
    (h : st.kb_get sid = .ok record) : (verify st none sid).ok = true := by
  simp [verify, h]

theorem verify_ok_iff {st : Store} {validator : Validator} {sid : String}
    {record : Record} (h : st.kb_get sid = .ok record) :
    ((verify st validator sid).ok = true ↔
      ∀ v, validator = some v → v (candidateOf record sid) = none) := by
  unfold verify
  rw [h]
  dsimp only
  cases validator with
  | none => simp
  | some v =>
    dsimp only
    cases hv : v (candidateOf record sid) with
    | none => simp [hv]
    | some m =>
      dsimp only
      constructor
      · intro hc
        exact absurd hc (by simp)
      · intro hc
        have := hc v rfl
        rw [hv] at this
        exact Option.noConfusion this

/-! ### Helper lemmas: the tag-merge and normalization algebra -/

theorem ite_isEmpty_cleanTags (ts : List String) :
    (if ts.isEmpty = true then [] else cleanTags ts) = cleanTags ts := by
  cases ts <;> simp [cleanTags]

theorem planFromSop_tags_list {d : RawPlan} {kb : String} {cat : Option String}
    {ts ps : List String} (hts : d.tags = .list ps) :
    (planFromSop d kb cat ts).tags = .list (dedupSeen [] (cleanTags ps ++ cleanTags ts)) := by
  unfold planFromSop
  dsimp only
  by_cases hc : (truthyStr cat && !truthyStr d.category) = true
  · rw [if_pos hc]
    dsimp only
    rw [hts]
    dsimp only
    rw [ite_isEmpty_cleanTags]
    split_ifs with h1 h2
    · rfl
    · rw [not_not.mp h1]
      rfl
    · exact absurd (not_not.mp h2) (fun hh => RawTags.noConfusion hh)
  · rw [if_neg hc]
    dsimp only
    rw [hts]
    dsimp only
    rw [ite_isEmpty_cleanTags]
    split_ifs with h1 h2
    · rfl
    · rw [not_not.mp h1]
      rfl
    · exact absurd (not_not.mp h2) (fun hh => RawTags.noConfusion hh)

theorem planFromSop_str_ignored (d : RawPlan) (kb : String) (cat : Option String)
    (ts : List String) (s s' : String) :
    planFromSop { d with tags := .str s } kb cat ts =
      planFromSop { d with tags := .str s' } kb cat ts := by
  unfold planFromSop
  dsimp only
  by_cases hc : (truthyStr cat && !truthyStr d.category) = true
  · rw [if_pos hc, if_pos hc]
    dsimp only
    rw [ite_isEmpty_cleanTags]
    split_ifs <;> simp_all
  · rw [if_neg hc, if_neg hc]
    dsimp only
    rw [ite_isEmpty_cleanTags]
    split_ifs <;> simp_all

theorem normalize_idem_list {p : RawPlan} {ts : List String} (hts : p.tags = .list ts) :
    normalizePlan (normalizePlan p) = normalizePlan p := by
  simp only [normalizePlan, hts, Option.getD_some, sanitize_html_idem, cleanTags_idem]

theorem fp_eq_of {d1 d2 : Doc} (h1 : d1.short_description = d2.short_description)
    (h2 : d1.html = d2.html) : content_fingerprint d1 = content_fingerprint d2 := by
  rw [content_fingerprint, content_fingerprint, h1, h2]

/-! ### Claims -/

/-- C1 (amended): with no existing identifier, `run` issues a create call to
the store; but when the store's create response omits `sys_id`, `run` does
NOT fail with a MissingIdentifier error — it continues: attachment uploads
are still performed against a missing (`none`) identifier, the result comes
back with `published = true`, the verification read-back is skipped, and the
verification field is the structured fallback
`ok := false, error := "Missing sys_id"`. -/
theorem C1_create_missing_identifier :
    (∀ (st : Store) (data : RawPlan) (validator : Validator) (kb : String)
       (cat : Option String) (ts atts : List String) (sd : String),
       data.short_description = some sd →
       validatePlan validator (normalizePlan (planFromSop data kb cat ts)) = .ok () →
       Call.create (buildArgs (normalizePlan (planFromSop data kb cat ts)) sd
         (sanitize_html (data.html.getD "")) (data.kb_base_sys_id.getD kb)) ∈
         (runKB st (.ok data) validator kb cat ts atts true none).2) ∧
    (∀ (st : Store) (data : RawPlan) (validator : Validator) (kb : String)
       (cat : Option String) (ts atts : List String) (sd : String)
       (rrec : Record) (av : String → String),
       validatePlan validator (normalizePlan (planFromSop data kb cat ts)) = .ok () →
       data.short_description = some sd →
       st.kb_create (buildArgs (normalizePlan (planFromSop data kb cat ts)) sd
         (sanitize_html (data.html.getD "")) (data.kb_base_sys_id.getD kb)) = .ok rrec →
       rrec.sys_id = none →
       (∀ p, st.kb_attach none p = .ok (av p)) →
       runKB st (.ok data) validator kb cat ts atts true none =
         (.ok { plan := normalizePlan (planFromSop data kb cat ts)
                fingerprint := content_fingerprint (docOfPlan (normalizePlan (planFromSop data kb cat ts)))
                mode := "create"
                published := true
                service_now := some { record := rrec, mode := "create",
                                      attachments := atts.map av }
                verification := some { ok := false, error := some "Missing sys_id",
                                       errors := [], record := none, normalized := none } },
          .create (buildArgs (normalizePlan (planFromSop data kb cat ts)) sd
            (sanitize_html (data.html.getD "")) (data.kb_base_sys_id.getD kb)) ::
            atts.map (Call.attach none))) := by
  constructor
  · intro st data validator kb cat ts atts sd hsd hval
    have h1 : (normalizePlan (planFromSop data kb cat ts)).short_description = some sd := by
      rw [normalizePlan_sd, planFromSop_sd, hsd]
    have h2 : (normalizePlan (planFromSop data kb cat ts)).html
        = some (sanitize_html (data.html.getD "")) := by
      rw [normalizePlan_html, planFromSop_html]
    have h3 : (normalizePlan (planFromSop data kb cat ts)).kb_base_sys_id
        = some (data.kb_base_sys_id.getD kb) := by
      rw [normalizePlan_kb, planFromSop_kb]
    exact runKB_pub_trace hval _ (actPublish_create_mem rfl h1 h2 h3)
  · intro st data validator kb cat ts atts sd rrec av hval hsd hcr hsys hat
    exact runKB_create_noid hval hsd hcr hsys hat

/-- C1 counterexample: a concrete run against a store whose create response
has no `sys_id` returns a result rather than failing, and still performs an
attachment upload (a further stage), contradicting the claim. -/
theorem C1_counterexample :
    runNoId.1 = .ok resNoId ∧
    resNoId.published = true ∧
    resNoId.verification = some { ok := false, error := some "Missing sys_id",
                                  errors := [], record := none, normalized := none } ∧
    runNoId.2 = [.create argsA, .attach none "a.txt"] :=
  ⟨rfl, rfl, rfl, rfl⟩

/-- C1 witness: the amended claim instantiated at the concrete store. -/
theorem C1_witness :
    Call.create argsA ∈ (runKB storeNoId (.ok dataA) none "kb001" none [] ["a.txt"] true none).2 ∧
    runKB storeNoId (.ok dataA) none "kb001" none [] ["a.txt"] true none =
      (.ok { plan := planA1
             fingerprint := content_fingerprint (docOfPlan planA1)
             mode := "create"
             published := true
             service_now := some { record := recNoId, mode := "create",
                                   attachments := ["att:a.txt"] }
             verification := some { ok := false, error := some "Missing sys_id",
                                    errors := [], record := none, normalized := none } },
       [.create argsA, .attach none "a.txt"]) := by
  constructor
  · exact C1_create_missing_identifier.1 storeNoId dataA none "kb001" none [] ["a.txt"]
      "Reboot" rfl rfl
  · exact C1_create_missing_identifier.2 storeNoId dataA none "kb001" none [] ["a.txt"]
      "Reboot" recNoId (fun p => "att:" ++ p) rfl rfl rfl rfl (fun _ => rfl)

/-- C2 (amended): `run` has no publish lifecycle stage distinct from the
store write and no structured publish outcome: with the publish flag false
it performs no store call and its result has `published = false` with no
`service_now`/`verification` keys; with the publish flag true, a failure of
the store write propagates out of `run` as an exception (a transport error),
not as a `status = "failed"` outcome. -/
theorem C2_publish_behavior :
    (∀ (st : Store) (cd : Except String RawPlan) (validator : Validator) (kb : String)
       (cat : Option String) (ts atts : List String) (ex : Option String),
       (runKB st cd validator kb cat ts atts false ex).2 = []) ∧
    (∀ (st : Store) (cd : Except String RawPlan) (validator : Validator) (kb : String)
       (cat : Option String) (ts atts : List String) (ex : Option String) (r : RunResult),
       (runKB st cd validator kb cat ts atts false ex).1 = .ok r →
       r.published = false ∧ r.service_now = none ∧ r.verification = none) ∧
    (∀ (st : Store) (data : RawPlan) (validator : Validator) (kb : String)
       (cat : Option String) (ts atts : List String) (sd msg : String),
       validatePlan validator (normalizePlan (planFromSop data kb cat ts)) = .ok () →
       data.short_description = some sd →
       st.kb_create (buildArgs (normalizePlan (planFromSop data kb cat ts)) sd
         (sanitize_html (data.html.getD "")) (data.kb_base_sys_id.getD kb)) = .error msg →
       runKB st (.ok data) validator kb cat ts atts true none =
         (.error (.transport msg),
          [.create (buildArgs (normalizePlan (planFromSop data kb cat ts)) sd
            (sanitize_html (data.html.getD "")) (data.kb_base_sys_id.getD kb))])) := by
  refine ⟨?_, ?_, ?_⟩
  · intro st cd validator kb cat ts atts ex
    exact (run_nopublish st cd validator kb cat ts atts ex).1
  · intro st cd validator kb cat ts atts ex r hr
    exact (run_nopublish st cd validator kb cat ts atts ex).2 r hr
  · intro st data validator kb cat ts atts sd msg hval hsd hcr
    exact runKB_create_transport hval hsd hcr

/-- C2 counterexample: with the publish flag true and a failing store write,
the concrete run propagates the exception (`run` evaluates to a transport
error), contradicting "this stage never propagates an exception / returns a
structured publish outcome with status failed". -/
theorem C2_counterexample :
    runBoom.1 = .error (.transport "transport failure") ∧
    runBoom.2 = [.create argsA] :=
  ⟨rfl, rfl⟩

/-- C2 witness: the amended claim instantiated at concrete runs. -/
theorem C2_witness :
    runPF.2 = [] ∧
    (resPF.published = false ∧ resPF.service_now = none ∧ resPF.verification = none) ∧
    runKB storeBoom (.ok dataA) none "kb001" none [] [] true none =
      (.error (.transport "transport failure"), [.create argsA]) := by
  refine ⟨?_, ?_, ?_⟩
  · exact C2_publish_behavior.1 storeOk (.ok dataA) none "kb001" none [] [] none
  · exact C2_publish_behavior.2.1 storeOk (.ok dataA) none "kb001" none [] [] none resPF rfl
  · exact C2_publish_behavior.2.2 storeBoom dataA none "kb001" none [] []
      "Reboot" "transport failure" rfl rfl rfl

/-- C3 (amended): the tag merge accepts plan tags only when they form a
sequence of strings; a single delimited string is never split on
comma/semicolon — its content is ignored entirely (the resulting tags are
the cleaned caller tags, or the empty list).  For sequences the merge
deduplicates case-sensitively, keeps first-seen order with plan tags first,
drops whitespace-only entries, and the spec's concrete example yields
exactly ["ops", "OPS", "site-a"]. -/
theorem C3_tag_merge :
    (planFromSop dataTagEx "kb001" none ["ops", "site-a"]).tags
        = .list ["ops", "OPS", "site-a"] ∧
    (∀ (d : RawPlan) (kb : String) (cat : Option String) (ts : List String) (s s' : String),
       planFromSop { d with tags := .str s } kb cat ts =
         planFromSop { d with tags := .str s' } kb cat ts) ∧
    (∀ (d : RawPlan) (kb : String) (cat : Option String) (ts ps : List String),
       d.tags = .list ps →
       ∃ rs, (planFromSop d kb cat ts).tags = .list rs ∧
         rs.Nodup ∧
         (∀ x, x ∈ rs ↔ x ∈ cleanTags ps ++ cleanTags ts) ∧
         List.Sublist rs (cleanTags ps ++ cleanTags ts)) := by
  refine ⟨by decide, planFromSop_str_ignored, ?_⟩
  intro d kb cat ts ps hts
  refine ⟨dedupSeen [] (cleanTags ps ++ cleanTags ts), planFromSop_tags_list hts,
    nodup_dedupSeen _ _, ?_, sublist_dedupSeen _ _⟩
  intro x
  rw [mem_dedupSeen]
  simp

/-- C3 counterexample: a plan whose tags value is the delimited string
"a,b" is not split on the comma — the result is the empty tag list, not
["a", "b"]. -/
theorem C3_counterexample :
    (planFromSop dataStrTags "kb001" none []).tags = .list [] ∧
    (planFromSop dataStrTags "kb001" none []).tags ≠ .list ["a", "b"] := by
  exact ⟨by decide, by decide⟩

/-- C3 witness: the amended claim instantiated at concrete tag lists. -/
theorem C3_witness :
    (planFromSop dataTagEx "kb001" none ["ops", "site-a"]).tags
        = .list ["ops", "OPS", "site-a"] ∧
    planFromSop { dataA with tags := .str "a,b" } "kb001" none [] =
      planFromSop { dataA with tags := .str "zzz" } "kb001" none [] ∧
    ∃ rs, (planFromSop dataTagEx "kb001" none ["ops", "site-a"]).tags = .list rs ∧
      rs.Nodup ∧
      (∀ x, x ∈ rs ↔ x ∈ cleanTags ["ops", "OPS", "ops", " "] ++ cleanTags ["ops", "site-a"]) ∧
      List.Sublist rs (cleanTags ["ops", "OPS", "ops", " "] ++ cleanTags ["ops", "site-a"]) := by
  refine ⟨C3_tag_merge.1, ?_, ?_⟩
  · exact C3_tag_merge.2.1 dataA "kb001" none [] "a,b" "zzz"
  · exact C3_tag_merge.2.2 dataTagEx "kb001" none ["ops", "site-a"]
      ["ops", "OPS", "ops", " "] rfl

/-- C4: the content fingerprint is a digest over the explicit ordered
semantic fields `short_description` and `html` only: two plans (raw, or as
normalized by the pipeline) with identical `short_description` and `html`
fingerprint identically regardless of any other field, and every successful
run's `fingerprint` field is exactly the digest of its plan. -/
theorem C4_fingerprint :
    (∀ p1 p2 : RawPlan, p1.short_description = p2.short_description →
       p1.html = p2.html →
       content_fingerprint (docOfPlan p1) = content_fingerprint (docOfPlan p2)) ∧
    (∀ (p1 p2 : RawPlan) (kb kb' : String) (cat cat' : Option String) (ts ts' : List String),
       p1.short_description = p2.short_description → p1.html = p2.html →
       content_fingerprint (docOfPlan (pipePlan p1 kb cat ts)) =
         content_fingerprint (docOfPlan (pipePlan p2 kb' cat' ts'))) ∧
    (∀ (st : Store) (cd : Except String RawPlan) (validator : Validator) (kb : String)
       (cat : Option String) (ts atts : List String) (pub : Bool) (ex : Option String)
       (r : RunResult),
       (runKB st cd validator kb cat ts atts pub ex).1 = .ok r →
       r.fingerprint = content_fingerprint (docOfPlan r.plan)) := by
  refine ⟨?_, ?_, ?_⟩
  · intro p1 p2 h1 h2
    exact fp_eq_of (by simp [docOfPlan, h1]) (by simp [docOfPlan, h2])
  · intro p1 p2 kb kb' cat cat' ts ts' h1 h2
    have f1 := pipePlan_fields p1 kb cat ts
    have f2 := pipePlan_fields p2 kb' cat' ts'
    exact fp_eq_of
      (by simp only [docOfPlan, f1.1, f2.1, h1])
      (by simp only [docOfPlan, f1.2.1, f2.2.1, h2])
  · intro st cd validator kb cat ts atts pub ex r hr
    exact runKB_fp hr

/-- C4 witness: plans differing only in `category` fingerprint identically,
and a concrete successful run's fingerprint is the digest of its plan. -/
theorem C4_witness :
    content_fingerprint (docOfPlan dataA) =
      content_fingerprint (docOfPlan { dataA with category := some "Operations" }) ∧
    content_fingerprint (docOfPlan (pipePlan dataA "kb001" none [])) =
      content_fingerprint (docOfPlan (pipePlan { dataA with category := some "Operations" }
        "kbOTHER" (some "Ops") ["x"])) ∧
    resCre.fingerprint = content_fingerprint (docOfPlan resCre.plan) := by
  refine ⟨?_, ?_, ?_⟩
  · exact C4_fingerprint.1 dataA { dataA with category := some "Operations" } rfl rfl
  · exact C4_fingerprint.2.1 dataA { dataA with category := some "Operations" }
      "kb001" "kbOTHER" none (some "Ops") [] ["x"] rfl rfl
  · exact C4_fingerprint.2.2 storeOk (.ok dataA) none "kb001" none [] [] true none resCre rfl

/-- C5: when a (truthy) existing record identifier is supplied, `run` never
issues a create call, issues an update call to the store (once the pipeline
reaches the acting stage), and a successful result's mode is "update"; with
no existing identifier the returned mode is "create". -/
theorem C5_update_vs_create :
    (∀ (st : Store) (cd : Except String RawPlan) (validator : Validator) (kb : String)
       (cat : Option String) (ts atts : List String) (pub : Bool) (ex : Option String)
       (a : WriteArgs), truthyStr ex = true →
       Call.create a ∉ (runKB st cd validator kb cat ts atts pub ex).2) ∧
    (∀ (st : Store) (data : RawPlan) (validator : Validator) (kb : String)
       (cat : Option String) (ts atts : List String) (sd : String) (ex : Option String),
       truthyStr ex = true →
       data.short_description = some sd →
       validatePlan validator (normalizePlan (planFromSop data kb cat ts)) = .ok () →
       Call.update (ex.getD "") (buildArgs (normalizePlan (planFromSop data kb cat ts)) sd
         (sanitize_html (data.html.getD "")) (data.kb_base_sys_id.getD kb)) ∈
         (runKB st (.ok data) validator kb cat ts atts true ex).2) ∧
    (∀ (st : Store) (cd : Except String RawPlan) (validator : Validator) (kb : String)
       (cat : Option String) (ts atts : List String) (pub : Bool) (ex : Option String)
       (r : RunResult),
       (runKB st cd validator kb cat ts atts pub ex).1 = .ok r →
       truthyStr ex = true → r.mode = "update") ∧
    (∀ (st : Store) (cd : Except String RawPlan) (validator : Validator) (kb : String)
       (cat : Option String) (ts atts : List String) (pub : Bool) (r : RunResult),
       (runKB st cd validator kb cat ts atts pub none).1 = .ok r →
       r.mode = "create") := by
  refine ⟨?_, ?_, ?_, ?_⟩
  · intro st cd validator kb cat ts atts pub ex a hex
    exact runKB_no_create hex a
  · intro st data validator kb cat ts atts sd ex hex hsd hval
    have h1 : (normalizePlan (planFromSop data kb cat ts)).short_description = some sd := by
      rw [normalizePlan_sd, planFromSop_sd, hsd]
    have h2 : (normalizePlan (planFromSop data kb cat ts)).html
        = some (sanitize_html (data.html.getD "")) := by
      rw [normalizePlan_html, planFromSop_html]
    have h3 : (normalizePlan (planFromSop data kb cat ts)).kb_base_sys_id
        = some (data.kb_base_sys_id.getD kb) := by
      rw [normalizePlan_kb, planFromSop_kb]
    exact runKB_pub_trace hval _ (actPublish_update_mem hex h1 h2 h3)
  · intro st cd validator kb cat ts atts pub ex r hr hex
    rw [runKB_mode hr, if_pos hex]
  · intro st cd validator kb cat ts atts pub r hr
    rw [runKB_mode hr]
    rfl

/-- C5 witness: the claim instantiated at a concrete store, with an
existing identifier "E1" and without one. -/
theorem C5_witness :
    Call.create argsA ∉ runUpd.2 ∧
    Call.update "E1" argsA ∈ runUpd.2 ∧
    resUpd.mode = "update" ∧
    resCre.mode = "create" := by
  refine ⟨?_, ?_, ?_, ?_⟩
  · exact C5_update_vs_create.1 storeOk (.ok dataA) none "kb001" none [] [] true
      (some "E1") argsA rfl
  · exact C5_update_vs_create.2.1 storeOk dataA none "kb001" none [] [] "Reboot"
      (some "E1") rfl rfl rfl
  · exact C5_update_vs_create.2.2.1 storeOk (.ok dataA) none "kb001" none [] [] true
      (some "E1") resUpd rfl rfl
  · exact C5_update_vs_create.2.2.2 storeOk (.ok dataA) none "kb001" none [] [] true
      resCre rfl

/-- C6: when no schema validator is available the validation stage is a
no-op — a run can never fail with a schema error; when a validator is
available and rejects the normalized plan, `run` aborts with the schema
error carrying the violation description and performs no store call of any
kind. -/
theorem C6_validation_gate :
    (∀ (st : Store) (cd : Except String RawPlan) (kb : String) (cat : Option String)
       (ts atts : List String) (pub : Bool) (ex : Option String) (m : String),
       (runKB st cd none kb cat ts atts pub ex).1 ≠ .error (.schema m)) ∧
    (∀ (st : Store) (data : RawPlan) (v : Doc → Option String) (kb : String)
       (cat : Option String) (ts atts : List String) (pub : Bool) (ex : Option String)
       (m : String),
       v (docOfPlan (normalizePlan (planFromSop data kb cat ts))) = some m →
       runKB st (.ok data) (some v) kb cat ts atts pub ex =
         (.error (.schema ("Plan failed schema validation: " ++ m)), [])) := by
  constructor
  · intro st cd kb cat ts atts pub ex m
    exact runKB_no_schema_err m
  · intro st data v kb cat ts atts pub ex m hv
    exact runKB_schema_err hv

/-- C6 witness: the claim instantiated with no validator and with a
rejecting validator. -/
theorem C6_witness :
    (runKB storeOk (.ok dataA) none "kb001" none [] [] true none).1 ≠
      .error (.schema "anything") ∧
    runKB storeOk (.ok dataA) (some vBad) "kb001" none [] [] true none =
      (.error (.schema "Plan failed schema validation: tags is a required property"), []) := by
  constructor
  · exact C6_validation_gate.1 storeOk (.ok dataA) "kb001" none [] [] true none "anything"
  · exact C6_validation_gate.2 storeOk dataA vBad "kb001" none [] [] true none
      "tags is a required property" rfl

/-- C7: the adapter probes the fixed ordered set of invocation shapes,
returns the first accepted result, advances to the next shape only on a
call-signature mismatch, propagates any other failure immediately, and when
every shape mismatches it fails with an adapter-exhausted error embedding
every attempted error message in order. -/
theorem C7_adapter_probing :
    (∀ (b : CallShape → ShapeOutcome) (m : CallShape → String),
       (∀ s, b s = .sigMismatch (m s)) →
       chatAdapter b = .error (.adapterExhausted (shapeOrder.map m))) ∧
    (∀ (b : CallShape → ShapeOutcome) (s : CallShape) (rest : List CallShape)
       (acc : List String) (msg : String),
       b s = .fail msg → chatGo b (s :: rest) acc = .error (.backend msg)) ∧
    (∀ (b : CallShape → ShapeOutcome) (s : CallShape) (rest : List CallShape)
       (acc : List String) (t : String),
       b s = .ok t → chatGo b (s :: rest) acc = .ok t) ∧
    (∀ (b : CallShape → ShapeOutcome) (s : CallShape) (rest : List CallShape)
       (acc : List String) (msg : String),
       b s = .sigMismatch msg → chatGo b (s :: rest) acc = chatGo b rest (msg :: acc)) := by
  refine ⟨?_, ?_, ?_, ?_⟩
  · intro b m hb
    simp [chatAdapter, shapeOrder, chatGo, hb]
  · intro b s rest acc msg h
    simp [chatGo, h]
  · intro b s rest acc t h
    simp [chatGo, h]
  · intro b s rest acc msg h
    simp [chatGo, h]

/-- C7 witness: the adapter contract instantiated at concrete backends. -/
theorem C7_witness :
    chatAdapter bMis = .error (.adapterExhausted
      ["unexpected keyword argument", "unexpected keyword argument",
       "unexpected keyword argument", "unexpected keyword argument"]) ∧
    chatGo bSnd [.plain, .instructionFirst, .instructionFirstHint]
        ["unexpected keyword argument"] = .error (.backend "rate limited") ∧
    chatGo bFst [.structuredHint, .plain, .instructionFirst, .instructionFirstHint] []
        = .ok "plan json" ∧
    chatGo bMis [.structuredHint, .plain, .instructionFirst, .instructionFirstHint] []
        = chatGo bMis [.plain, .instructionFirst, .instructionFirstHint]
            ["unexpected keyword argument"] := by
  refine ⟨?_, ?_, ?_, ?_⟩
  · exact C7_adapter_probing.1 bMis (fun _ => "unexpected keyword argument")
      (fun s => rfl)
  · exact C7_adapter_probing.2.1 bSnd .plain [.instructionFirst, .instructionFirstHint]
      ["unexpected keyword argument"] "rate limited" rfl
  · exact C7_adapter_probing.2.2.1 bFst .structuredHint
      [.plain, .instructionFirst, .instructionFirstHint] [] "plan json" rfl
  · exact C7_adapter_probing.2.2.2 bMis .structuredHint
      [.plain, .instructionFirst, .instructionFirstHint] []
      "unexpected keyword argument" rfl

/-- C8: plan normalization is idempotent on every valid plan (spec §3: a
valid plan's `tags` is a sequence of strings). -/
theorem C8_normalize_idempotent (p : RawPlan) (hp : SpecValidPlan p) :
    normalizePlan (normalizePlan p) = normalizePlan p := by
  obtain ⟨-, -, -, ts, hts⟩ := hp
  exact normalize_idem_list hts

/-- C8 witness: idempotence at a concrete valid plan. -/
theorem C8_witness :
    SpecValidPlan planA1 ∧
    normalizePlan (normalizePlan planA1) = normalizePlan planA1 := by
  have hp : SpecValidPlan planA1 := ⟨by decide, by decide, by decide, ["hardware"], rfl⟩
  exact ⟨hp, C8_normalize_idempotent planA1 hp⟩

/-- C9: the verification `ok` flag is determined solely by schema validation
of the normalized read-back record — with no validator it is always true
when the read succeeds — and verification never compares the read-back
content or fingerprint against the plan: a concrete run whose read-back
content has drifted still gets `ok = true` while the recomputed fingerprint
differs from the run's. -/
theorem C9_verification_semantics :
    (∀ (st : Store) (validator : Validator) (sid : String) (record : Record),
       st.kb_get sid = .ok record →
       ((verify st validator sid).ok = true ↔
         ∀ v, validator = some v → v (candidateOf record sid) = none)) ∧
    (∀ (st : Store) (sid : String) (record : Record),
       st.kb_get sid = .ok record → (verify st none sid).ok = true) ∧
    (runDrift.1 = .ok resDrift ∧
     runDrift.2 = [.create argsA, .get "S1"] ∧
     resDrift.verification = some driftVR ∧
     driftVR.ok = true ∧
     driftVR.normalized.map NormalizedView.fingerprint ≠ some resDrift.fingerprint) := by
  refine ⟨?_, ?_, rfl, rfl, rfl, rfl, by decide⟩
  · intro st validator sid record h
    exact verify_ok_iff h
  · intro st sid record h
    exact verify_none_ok h

/-- C9 witness: the read-back-only semantics at the concrete drifted store. -/
theorem C9_witness :
    (verify storeDrift none "S1").ok = true ∧
    ((verify storeDrift (some vBad) "S1").ok = true ↔
      ∀ v, (some vBad : Validator) = some v →
        v (candidateOf { recS1 with text := some "<p>TAMPERED</p>" } "S1") = none) := by
  constructor
  · exact C9_verification_semantics.2.1 storeDrift "S1"
      { recS1 with text := some "<p>TAMPERED</p>" } rfl
  · exact C9_verification_semantics.1 storeDrift (some vBad) "S1"
      { recS1 with text := some "<p>TAMPERED</p>" } rfl

/-- C10: with the publish flag false, `run` performs no store operation at
all (empty call trace: no create, update, attachment or read-back), and a
returned result carries exactly the four unconditional keys — `published`
is false and the `service_now` and `verification` keys are absent. -/
theorem C10_no_publish_frame :
    (∀ (st : Store) (cd : Except String RawPlan) (validator : Validator) (kb : String)
       (cat : Option String) (ts atts : List String) (ex : Option String),
       (runKB st cd validator kb cat ts atts false ex).2 = []) ∧
    (∀ (st : Store) (cd : Except String RawPlan) (validator : Validator) (kb : String)
       (cat : Option String) (ts atts : List String) (ex : Option String) (r : RunResult),
       (runKB st cd validator kb cat ts atts false ex).1 = .ok r →
       r.published = false ∧ r.service_now = none ∧ r.verification = none) := by
  constructor
  · intro st cd validator kb cat ts atts ex
    exact (run_nopublish st cd validator kb cat ts atts ex).1
  · intro st cd validator kb cat ts atts ex r hr
    exact (run_nopublish st cd validator kb cat ts atts ex).2 r hr

/-- C10 witness: the frame condition at a concrete no-publish run. -/
theorem C10_witness :
    runPF.2 = [] ∧
    (resPF.published = false ∧ resPF.service_now = none ∧ resPF.verification = none) := by
  constructor
  · exact C10_no_publish_frame.1 storeOk (.ok dataA) none "kb001" none [] [] none
  · exact C10_no_publish_frame.2 storeOk (.ok dataA) none "kb001" none [] [] none resPF rfl

end KBPub
